import Mathlib

/-!
Verification of the coldquery session/executor core (a PostgreSQL MCP server).

Shallow embedding conventions:
* Python strings are Lean `String`s; where character-level reasoning is needed
  (identifier sanitization) they are `List Char`.
* Python `None`-able values are `Option`s; Python truthiness of strings and
  bools is modelled explicitly (`pyTruthyStr`, `pyTruthyBool`).
* Raised exceptions become `Except` results; error classes become the
  `CqError` inductive.
* monotone clock times and timer deadlines are `Nat` (minutes); the asyncio
  timer handle of a session is modelled by its scheduled deadline.
* database-driver effects (connection acquisition/teardown, SQL statements
  issued on a session's dedicated connection) are recorded as `Ev` traces.
-/

/-! ## Python truthiness helpers -/

/-- Python truthiness of an optional string: `None` and `""` are falsy. -/
def pyTruthyStr : Option String → Bool
  | none => false
  | some s => !(s == "")

/-- Python truthiness of an optional bool: `None` and `False` are falsy. -/
def pyTruthyBool : Option Bool → Bool
  | none => false
  | some b => b

/-- Is an `Except` an error? -/
def isErr {ε α : Type} : Except ε α → Bool
  | .error _ => true
  | .ok _ => false

/-! ## `coldquery.security.access_control.require_write_access` -/

/-- `require_write_access(session_id, autocommit)` from
`src/coldquery/security/access_control.py`: raises `PermissionError` when
`not session_id and not autocommit`. -/
def require_write_access (session_id : Option String) (autocommit : Option Bool) :
    Except String Unit :=
  if !pyTruthyStr session_id && !pyTruthyBool autocommit then
    .error "Safety Check Failed: Write operations require either a valid session_id or autocommit: true."
  else
    .ok ()

/-! ## `coldquery.security.identifiers` (modelled on `List Char`) -/

/-- First character class of `IDENTIFIER_PATTERN`: `[a-zA-Z_]`. -/
def isIdentStart (c : Char) : Bool := c.isAlpha || c = '_'

/-- Body character class of `IDENTIFIER_PATTERN`: `[a-zA-Z0-9_$"]`. -/
def isIdentChar (c : Char) : Bool := c.isAlphanum || c = '_' || c = '$' || c = '"'

/-- A full match of the character classes of
`IDENTIFIER_PATTERN = ^[a-zA-Z_][a-zA-Z0-9_$"]*$`: a leading letter or
underscore followed only by letters, digits, underscores, dollar signs or
double quotes. -/
def matchCore : List Char → Bool
  | [] => false
  | c :: rest => isIdentStart c && rest.all isIdentChar

/-- Python `re.match(IDENTIFIER_PATTERN, name)` as a predicate.  In Python,
`$` (without `re.MULTILINE`) matches at the end of the string or just before
a newline at the end of the string, so the regex also accepts a matching core
followed by one trailing `'\n'`. -/
def pyRegexMatch (cs : List Char) : Bool :=
  matchCore cs || ((cs.getLast? == some '\n') && matchCore cs.dropLast)

/-- `MAX_IDENTIFIER_LENGTH` from `src/coldquery/security/identifiers.py`. -/
def MAX_IDENTIFIER_LENGTH : Nat := 63

/-- The three ways `InvalidIdentifierError` is raised in
`validate_identifier`. -/
inductive IdentErr : Type
  | tooLong
  | badChars
  | hasDot
deriving DecidableEq, Repr

/-- `validate_identifier(name)` from `src/coldquery/security/identifiers.py`. -/
def validate_identifier (name : List Char) : Except IdentErr Unit :=
  if MAX_IDENTIFIER_LENGTH < name.length then .error .tooLong
  else if !pyRegexMatch name then .error .badChars
  else if name.contains '.' then .error .hasDot
  else .ok ()

/-- Python `name.replace('"', '""')`: double every double quote. -/
def escapeQuotes : List Char → List Char
  | [] => []
  | c :: rest => if c = '"' then '"' :: '"' :: escapeQuotes rest else c :: escapeQuotes rest

/-- `sanitize_identifier(name)` from `src/coldquery/security/identifiers.py`:
validate, escape inner double quotes, wrap in double quotes. -/
def sanitize_identifier (name : List Char) : Except IdentErr (List Char) :=
  match validate_identifier name with
  | .error e => .error e
  | .ok _ => .ok ('"' :: (escapeQuotes name ++ ['"']))

/-- No unescaped (lone) double quote: every `'"'` in the list is immediately
followed by a pairing `'"'`. -/
def noLoneQuote : List Char → Bool
  | [] => true
  | [c] => c ≠ '"'
  | c :: c2 :: rest =>
    if c = '"' then (c2 = '"') && noLoneQuote rest else noLoneQuote (c2 :: rest)

/-! ## `coldquery.core.executor.AsyncpgSessionExecutor.execute` -/

/-- One result row, as produced by `dict(record)`: an ordered mapping from
column name to (rendered) value. -/
abbrev Row := List (String × String)

/-- The driver's response to a `fetch` call: the records, plus the per-column
descriptors `(attr.name, attr.type.__name__)` when the result object exposes a
`columns` attribute (`none` models `hasattr(results, 'columns')` being false). -/
structure FetchResult : Type where
  rows : List Row
  columns : Option (List (String × String))
deriving DecidableEq, Repr

/-- The dedicated connection behind an `AsyncpgSessionExecutor`, abstracted to
the responses it would give: what `fetch` would return and the textual status
tag `execute` would return. -/
structure Conn : Type where
  fetchResult : FetchResult
  statusText : String
deriving DecidableEq, Repr

/-- The `QueryResult` dataclass of `src/coldquery/core/executor.py`. -/
structure QueryResult : Type where
  rows : List Row
  row_count : Option Nat
  fields : Option (List (String × String))
deriving DecidableEq, Repr

/-- Python `s.strip()` (ASCII whitespace), computed on the character list so
that concrete instances reduce. -/
def pyStrip (s : String) : String :=
  ⟨((s.data.dropWhile Char.isWhitespace).reverse.dropWhile Char.isWhitespace).reverse⟩

/-- Python `s.upper()` (ASCII), computed on the character list. -/
def pyUpper (s : String) : String := ⟨s.data.map Char.toUpper⟩

/-- Python `s.startswith(pre)`, computed on the character lists. -/
def pyStartsWith (s pre : String) : Bool := pre.data.isPrefixOf s.data

/-- The statement classifier of `AsyncpgSessionExecutor.execute`:
`sql.strip().upper().startswith("SELECT")`. -/
def isSelectStmt (sql : String) : Bool := pyStartsWith (pyUpper (pyStrip sql)) "SELECT"

/-- Python `s.split()` (no separator): split on whitespace, dropping empty
tokens, computed on the character list. -/
def pySplitWs (s : String) : List String :=
  ((s.data.splitOnP Char.isWhitespace).filter (fun t => t ≠ [])).map (fun t => ⟨t⟩)

/-- Python `s.isdigit()` restricted to ASCII: non-empty and all digits. -/
def pyIsdigit (s : String) : Bool := !(s == "") && s.data.all Char.isDigit

/-- Python `int(s)` on an all-digit string: its decimal value, computed on
the character list. -/
def pyToNat (s : String) : Nat :=
  s.data.foldl (fun n c => n * 10 + (c.toNat - '0'.toNat)) 0

/-- `int(tok) if tok.isdigit() else 0`. -/
def parseTagCount (tok : String) : Nat :=
  if pyIsdigit tok then pyToNat tok else 0

/-- The status-tag row-count parse of `AsyncpgSessionExecutor.execute`:
`row_count_str = status_message.split()[-1] if status_message else '0'`,
then `int(row_count_str) if row_count_str.isdigit() else 0`.  A non-empty,
all-whitespace status has no last token, so `[-1]` raises `IndexError`
(modelled as `none`). -/
def statusRowCount (status : String) : Option Nat :=
  if status = "" then some (parseTagCount "0")
  else
    match (pySplitWs status).getLast? with
    | some tok => some (parseTagCount tok)
    | none => none

/-- `AsyncpgSessionExecutor.execute(sql, ...)` from
`src/coldquery/core/executor.py`, as a function of the connection's
responses.  The row-fetching branch materializes every record and the column
descriptors (empty when the result object has no `columns` attribute); the
status branch returns no rows and the parsed status-tag count.  The
`statement_timeout` bracketing and parameter binding are connection-level
effects that do not alter the returned `QueryResult` and are not modelled. -/
def executor_execute (sql : String) (conn : Conn) : Except String QueryResult :=
  if isSelectStmt sql then
    .ok { rows := conn.fetchResult.rows,
          row_count := some conn.fetchResult.rows.length,
          fields := some (conn.fetchResult.columns.getD []) }
  else
    match statusRowCount conn.statusText with
    | some n => .ok { rows := [], row_count := some n, fields := some [] }
    | none => .error "IndexError: list index out of range"

/-! ## `coldquery.core.session.SessionManager` -/

/-- `SESSION_TTL_MINUTES` from `src/coldquery/core/session.py`. -/
def SESSION_TTL_MINUTES : Nat := 30

/-- `MAX_SESSIONS` from `src/coldquery/core/session.py`. -/
def MAX_SESSIONS : Nat := 10

/-- The `SessionData` object: id, owned executor (identified by a handle),
creation time, last-accessed time, and the pending expiry-timer deadline
(`none` models `ttl_timer is None`). -/
structure SessData : Type where
  sid : String
  executor : Nat
  created_at : Nat
  last_accessed : Nat
  ttl_timer : Option Nat
deriving DecidableEq, Repr

/-- The `SessionManager._sessions` dict, as an association list keyed by
`sid` (keys are unique in the real dict; new entries are consed in front, and
all lookups take the first match). -/
abbrev Sessions := List SessData

/-- `self._sessions.get(session_id)`. -/
def lookupSession (σ : Sessions) (sid : String) : Option SessData :=
  σ.find? (fun d => d.sid = sid)

/-- Update the entry with the given key (no-op on the others, and on a miss). -/
def updateSession (σ : Sessions) (sid : String) (f : SessData → SessData) : Sessions :=
  σ.map (fun d => if d.sid = sid then f d else d)

/-- `SessionManager._reset_ttl(session_id)`: cancel any pending timer and
schedule expiry `SESSION_TTL_MINUTES` from now (modelled by overwriting the
deadline). No-op when the id is absent. -/
def reset_ttl (σ : Sessions) (sid : String) (now : Nat) : Sessions :=
  updateSession σ sid (fun d => { d with ttl_timer := some (now + SESSION_TTL_MINUTES) })

/-- `SessionManager.get_session(session_id)`: a pure read of the map — it
returns the entry (or `None`) and leaves the registry state unchanged. -/
def get_session (σ : Sessions) (sid : String) : Option SessData × Sessions :=
  (lookupSession σ sid, σ)

/-- `SessionManager.get_session_executor(session_id)`: on a hit, refresh
`last_accessed` and reset the TTL timer, returning the executor; on a miss,
return `None` and leave the state unchanged. -/
def get_session_executor (σ : Sessions) (sid : String) (now : Nat) :
    Option Nat × Sessions :=
  match lookupSession σ sid with
  | some d =>
    (some d.executor,
     reset_ttl (updateSession σ sid (fun e => { e with last_accessed := now })) sid now)
  | none => (none, σ)

/-- `SessionManager.close_session(session_id)`: pop the entry (if present)
from the map first, then cancel its timer and `disconnect(destroy=True)` its
executor.  Returns the popped entry (`some` = the connection was released,
exactly once, by this call) alongside the new state. -/
def close_session (σ : Sessions) (sid : String) : Sessions × Option SessData :=
  match lookupSession σ sid with
  | some d => (σ.eraseP (fun e => e.sid = sid), some d)
  | none => (σ, none)

/-- `SessionManager._expire_session(session_id)`: the timer callback; it just
logs and delegates to `close_session`. -/
def expire_session (σ : Sessions) (sid : String) : Sessions × Option SessData :=
  close_session σ sid

/-- Error taxonomy of the modelled code paths. -/
inductive CqError : Type
  | resourceExhausted
  | invalidSession (sid : String)
  | invalidIsolation (lvl : String)
  | beginFailed (inner : CqError)
  | opMissingSql (i : Nat)
  | txFailed (i : Nat) (msg : String)
  | engineError (msg : String)
  | operationsRequired
  | noExecutor
  | attributeError
deriving DecidableEq, Repr

instance {ε α : Type} [DecidableEq ε] [DecidableEq α] : DecidableEq (Except ε α) := fun x y =>
  match x, y with
  | .ok a, .ok b => if h : a = b then .isTrue (by rw [h]) else .isFalse (by simp [h])
  | .error a, .error b => if h : a = b then .isTrue (by rw [h]) else .isFalse (by simp [h])
  | .ok _, .error _ => .isFalse (by simp)
  | .error _, .ok _ => .isFalse (by simp)

/-- Outcome of `SessionManager.create_session`. -/
structure CreateResult : Type where
  state : Sessions
  result : Except CqError String
  acquired : Bool
  destroyed : Bool
deriving DecidableEq, Repr

/-- `SessionManager.create_session()` from `src/coldquery/core/session.py`.
`σ0` is the registry state at the first capacity check; `σ1` is the state
when `await self._pool_executor.create_session()` resumes (concurrent tasks
may have mutated the map during the suspension).  `new_id` is the fresh
uuid, `eid` the acquired executor, `now` the clock.  The double-check after
the await destroys the just-acquired executor and re-raises when the cap was
reached concurrently; otherwise the session is registered and its TTL
started. -/
def create_session (σ0 σ1 : Sessions) (new_id : String) (eid : Nat) (now : Nat) :
    CreateResult :=
  if MAX_SESSIONS ≤ σ0.length then
    { state := σ0, result := .error .resourceExhausted, acquired := false, destroyed := false }
  else if MAX_SESSIONS ≤ σ1.length then
    { state := σ1, result := .error .resourceExhausted, acquired := true, destroyed := true }
  else
    { state :=
        reset_ttl
          ({ sid := new_id, executor := eid, created_at := now,
             last_accessed := now, ttl_timer := none } :: σ1) new_id now,
      result := .ok new_id, acquired := true, destroyed := false }

/-- Serial `create_session`: no concurrent mutation between the capacity
check and the post-acquisition re-check (the instantiation used inside a
single request handler). -/
def create_session_serial (σ : Sessions) (new_id : String) (eid : Nat) (now : Nat) :
    CreateResult :=
  create_session σ σ new_id eid now

/-! ## `coldquery.core.context.resolve_executor` -/

/-- `resolve_executor(ctx, session_id)` from `src/coldquery/core/context.py`.
`pool` is `ctx.executor`.  `if not session_id:` returns the pool executor
(note: Python truthiness, so an explicit empty string also takes this
branch); otherwise the session registry is consulted and a miss raises
`ValueError` carrying the identifier. -/
def resolve_executor (pool : Nat) (σ : Sessions) (session_id : Option String)
    (now : Nat) : Except CqError (Nat × Sessions) :=
  if !pyTruthyStr session_id then .ok (pool, σ)
  else
    let s := session_id.getD ""
    match get_session_executor σ s now with
    | (some e, σ1) => .ok (e, σ1)
    | (none, _) => .error (.invalidSession s)

/-! ## Driver-effect traces for the transaction action handlers -/

/-- Connection-level effects observable from the handlers: acquiring a fresh
dedicated connection from the pool, destroying one
(`disconnect(destroy=True)`), and issuing a SQL statement on a session's
dedicated connection. -/
inductive Ev : Type
  | acquire (eid : Nat)
  | destroy (eid : Nat)
  | sqlOn (sid : String) (sql : String)
deriving DecidableEq, Repr

/-- The connection effects of one `create_session` call. -/
def createEvents (r : CreateResult) (eid : Nat) : List Ev :=
  (if r.acquired then [.acquire eid] else []) ++ (if r.destroyed then [.destroy eid] else [])

/-- The connection effects of one `close_session` call: the popped entry's
executor is destroyed. -/
def closeEvents (popped : Option SessData) : List Ev :=
  match popped with
  | some d => [.destroy d.executor]
  | none => []

/-! ## `coldquery.actions.tx.lifecycle.begin_handler` -/

/-- `valid_levels` from `src/coldquery/actions/tx/lifecycle.py`. -/
def valid_levels : List String :=
  ["READ UNCOMMITTED", "READ COMMITTED", "REPEATABLE READ", "SERIALIZABLE"]

/-- Outcome of `begin_handler`: the result (on success, the session id and
the reported isolation level), the registry state, and the effect trace. -/
structure BeginOut : Type where
  result : Except CqError (String × String)
  state : Sessions
  events : List Ev
deriving DecidableEq, Repr

/-- `begin_handler(params, context)` from
`src/coldquery/actions/tx/lifecycle.py`.  Control flow of the source: the
session is created FIRST (acquiring a dedicated connection); only then, when
an isolation level is supplied (Python-truthy), is it validated against
`valid_levels`; an invalid level raises `ToolError` inside the `try`, whose
`except` closes the just-created session and re-raises wrapped in
`RuntimeError("Failed to begin transaction: ...")`.  The `BEGIN` statement
itself is modelled as succeeding (engine failures on `BEGIN` are out of
scope of the modelled claims). -/
def begin_handler (isolation_level : Option String) (σ0 : Sessions)
    (new_id : String) (eid : Nat) (now : Nat) : BeginOut :=
  let cr := create_session_serial σ0 new_id eid now
  match cr.result with
  | .error e => ⟨.error e, cr.state, createEvents cr eid⟩
  | .ok _ =>
    match get_session_executor cr.state new_id now with
    | (none, σ1) =>
      let c := close_session σ1 new_id
      ⟨.error (.beginFailed .noExecutor), c.1, createEvents cr eid ++ closeEvents c.2⟩
    | (some _, σ1) =>
      if pyTruthyStr isolation_level then
        let lvl := isolation_level.getD ""
        if valid_levels.contains (pyUpper lvl) then
          ⟨.ok (new_id, lvl), σ1,
           createEvents cr eid ++ [.sqlOn new_id ("BEGIN ISOLATION LEVEL " ++ pyUpper lvl)]⟩
        else
          let c := close_session σ1 new_id
          ⟨.error (.beginFailed (.invalidIsolation lvl)), c.1,
           createEvents cr eid ++ closeEvents c.2⟩
      else
        ⟨.ok (new_id, "READ COMMITTED"), σ1, createEvents cr eid ++ [.sqlOn new_id "BEGIN"]⟩

/-! ## `coldquery.actions.query.transaction.transaction_handler` -/

/-- One element of the `operations` parameter: `op.get("sql")` and
`op.get("params")`. -/
structure TxOp : Type where
  sql : Option String
  params : Option (List String)
deriving DecidableEq, Repr

/-- Outcome of `transaction_handler`: result, registry state, effect trace. -/
structure TxOut : Type where
  result : Except CqError Unit
  state : Sessions
  events : List Ev
deriving DecidableEq, Repr

/-- The `for i, op in enumerate(operations)` loop body of
`transaction_handler`, against an engine oracle giving each statement's
outcome.  An op whose `sql` is Python-falsy (absent or empty) raises
`ToolError(f"Operation {i} is missing 'sql'.")` OUTSIDE the inner
`try/except`, so no `ROLLBACK` is issued for it; an op whose execution fails
triggers `await executor.execute("ROLLBACK")` and then
`RuntimeError(f"Transaction failed at operation {i}: ...")` (if the
`ROLLBACK` itself fails, that failure propagates instead).  Returns the SQL
events issued and the first error, if any. -/
def runOps (oracle : String → Option (List String) → Except String Unit)
    (sid : String) : List TxOp → Nat → List Ev × Option CqError
  | [], _ => ([], none)
  | op :: rest, i =>
    if !pyTruthyStr op.sql then ([], some (.opMissingSql i))
    else
      let q := op.sql.getD ""
      match oracle q op.params with
      | .ok _ =>
        let r := runOps oracle sid rest (i + 1)
        (.sqlOn sid q :: r.1, r.2)
      | .error m =>
        match oracle "ROLLBACK" none with
        | .ok _ => ([.sqlOn sid q, .sqlOn sid "ROLLBACK"], some (.txFailed i m))
        | .error m2 => ([.sqlOn sid q, .sqlOn sid "ROLLBACK"], some (.engineError m2))

/-- `transaction_handler(params, context)` from
`src/coldquery/actions/query/transaction.py`.  Empty/missing `operations`
raise before any session exists.  A throwaway session is created, `BEGIN`
issued, the operations run in order (`runOps`), then `COMMIT`; the `finally`
closes the session on every path that reached the `try`.  On the all-success
path the response construction `[r.to_dict() for r in results]` raises
`AttributeError` (the `QueryResult` dataclass defines no `to_dict`), after
`COMMIT` and still inside the `try/finally`, so the session is closed and
the error propagates. -/
def transaction_handler (operations : List TxOp)
    (oracle : String → Option (List String) → Except String Unit)
    (σ0 : Sessions) (new_id : String) (eid : Nat) (now : Nat) : TxOut :=
  if operations.isEmpty then ⟨.error .operationsRequired, σ0, []⟩
  else
    let cr := create_session_serial σ0 new_id eid now
    match cr.result with
    | .error e => ⟨.error e, cr.state, createEvents cr eid⟩
    | .ok _ =>
      match get_session_executor cr.state new_id now with
      | (none, σ1) => ⟨.error .noExecutor, σ1, createEvents cr eid⟩
      | (some _, σ1) =>
        match oracle "BEGIN" none with
        | .error m =>
          let c := close_session σ1 new_id
          ⟨.error (.engineError m), c.1,
           createEvents cr eid ++ [.sqlOn new_id "BEGIN"] ++ closeEvents c.2⟩
        | .ok _ =>
          let r := runOps oracle new_id operations 0
          let c := close_session σ1 new_id
          match r.2 with
          | some e =>
            ⟨.error e, c.1,
             createEvents cr eid ++ [.sqlOn new_id "BEGIN"] ++ r.1 ++ closeEvents c.2⟩
          | none =>
            match oracle "COMMIT" none with
            | .error m =>
              ⟨.error (.engineError m), c.1,
               createEvents cr eid ++ [.sqlOn new_id "BEGIN"] ++ r.1
                 ++ [.sqlOn new_id "COMMIT"] ++ closeEvents c.2⟩
            | .ok _ =>
              ⟨.error .attributeError, c.1,
               createEvents cr eid ++ [.sqlOn new_id "BEGIN"] ++ r.1
                 ++ [.sqlOn new_id "COMMIT"] ++ closeEvents c.2⟩

/-! ## Helper lemmas -/

theorem escapeQuotes_noLoneQuote (cs : List Char) : noLoneQuote (escapeQuotes cs) = true := by
  induction cs with
  | nil => rfl
  | cons c rest ih =>
    by_cases hc : c = '"'
    · subst hc
      simp only [escapeQuotes, if_pos rfl]
      simp [noLoneQuote, ih]
    · simp only [escapeQuotes, if_neg hc]
      cases he : escapeQuotes rest with
      | nil => simp [noLoneQuote, hc]
      | cons c2 r2 =>
        rw [he] at ih
        simp [noLoneQuote, hc, ih]

/-! ## Claim theorems -/

/-- Claim C9 (confirmed): `require_write_access(session_id, autocommit)`
raises a permission error exactly when neither a session id nor an explicit
autocommit flag is present (both absent or falsy: `None`/`""` and
`None`/`False`), and returns without effect whenever at least one of the two
is (truthily) supplied. -/
theorem require_write_access_fails_closed (sid : Option String) (ac : Option Bool) :
    isErr (require_write_access sid ac) = true ↔
      ((sid = none ∨ sid = some "") ∧ (ac = none ∨ ac = some false)) := by
  cases sid with
  | none =>
    cases ac with
    | none => simp [require_write_access, pyTruthyStr, pyTruthyBool, isErr]
    | some b => cases b <;> simp [require_write_access, pyTruthyStr, pyTruthyBool, isErr]
  | some s =>
    cases ac with
    | none =>
      simp [require_write_access, pyTruthyStr, pyTruthyBool, isErr]
      by_cases hs : s = "" <;> simp [hs, isErr]
    | some b =>
      cases b with
      | false =>
        simp [require_write_access, pyTruthyStr, pyTruthyBool, isErr]
        by_cases hs : s = "" <;> simp [hs, isErr]
      | true =>
        simp [require_write_access, pyTruthyStr, pyTruthyBool, isErr]

/-- Closed instance of `require_write_access_fails_closed` at a concrete
input: an absent session id with `autocommit=False` is denied. -/
theorem require_write_access_fails_closed_witness :
    isErr (require_write_access none (some false)) = true :=
  (require_write_access_fails_closed none (some false)).mpr
    (by exact ⟨Or.inl rfl, Or.inr rfl⟩)

/-- Claim C10 (counterexample to the claim as stated): the input `"ab\n"`
does not consist of a leading letter/underscore followed only by the allowed
identifier characters (its last character is a newline), so the claim
requires `InvalidIdentifierError`; yet `sanitize_identifier` accepts it and
returns it quoted, because Python's `$` anchor also matches just before a
trailing newline. -/
theorem sanitize_identifier_claim_false :
    matchCore ['a', 'b', '\n'] = false ∧
    ¬(63 < ['a', 'b', '\n'].length) ∧
    sanitize_identifier ['a', 'b', '\n'] = .ok ['"', 'a', 'b', '\n', '"'] := by
  decide

/-- Claim C10 (amended): `sanitize_identifier` raises `InvalidIdentifierError`
exactly when the input exceeds 63 characters, or fails the pattern
`^[a-zA-Z_][a-zA-Z0-9_$"]*$` under Python `re` semantics (where `$` also
accepts one trailing newline after a matching core), or contains a dot;
otherwise it returns the input wrapped in double quotes with every embedded
double quote doubled, so the interior of the returned quoted identifier
never contains an unescaped double quote. -/
theorem sanitize_identifier_correct (name : List Char) :
    (isErr (sanitize_identifier name) = true ↔
      (MAX_IDENTIFIER_LENGTH < name.length ∨ pyRegexMatch name = false ∨
        '.' ∈ name)) ∧
    (∀ out, sanitize_identifier name = .ok out →
      out = '"' :: (escapeQuotes name ++ ['"']) ∧
        noLoneQuote (escapeQuotes name) = true) := by
  constructor
  · unfold sanitize_identifier validate_identifier
    by_cases h1 : MAX_IDENTIFIER_LENGTH < name.length
    · simp [h1, isErr]
    · simp only [if_neg h1]
      by_cases h2 : pyRegexMatch name = true
      · simp only [h2, Bool.not_true, Bool.false_eq_true, if_false]
        by_cases h3 : '.' ∈ name
        · simp [h3, isErr, h1, h2]
        · simp [h3, isErr, h1, h2]
      · simp only [Bool.not_eq_true] at h2
        simp [h2, isErr, h1]
  · intro out hout
    unfold sanitize_identifier validate_identifier at hout
    by_cases h1 : MAX_IDENTIFIER_LENGTH < name.length
    · simp [h1] at hout
    · simp only [if_neg h1] at hout
      by_cases h2 : pyRegexMatch name = true
      · simp only [h2, Bool.not_true, Bool.false_eq_true, if_false] at hout
        by_cases h3 : name.contains '.' = true
        · rw [if_pos h3] at hout
          exact Except.noConfusion hout
        · rw [if_neg h3] at hout
          have h4 : '"' :: (escapeQuotes name ++ ['"']) = out := by injection hout
          exact ⟨h4.symm, escapeQuotes_noLoneQuote name⟩
      · simp only [Bool.not_eq_true] at h2
        simp [h2] at hout

/-- Closed instance of `sanitize_identifier_correct` at the concrete input
`a"b`: the embedded double quote comes out doubled and the interior has no
lone quote. -/
theorem sanitize_identifier_correct_witness :
    ['"', 'a', '"', '"', 'b', '"'] = '"' :: (escapeQuotes ['a', '"', 'b'] ++ ['"']) ∧
      noLoneQuote (escapeQuotes ['a', '"', 'b']) = true :=
  (sanitize_identifier_correct ['a', '"', 'b']).2 ['"', 'a', '"', '"', 'b', '"'] (by decide)

/-- Claim C4 (confirmed): `AsyncpgSessionExecutor.execute` decides the
execution path by the statement's trimmed, case-insensitive leading keyword
(`sql.strip().upper().startswith("SELECT")`): a row-returning statement takes
the row-fetching path, materializing all rows eagerly; every other statement
takes the status-returning path, whose result has an empty row sequence and
does not depend on the fetch response at all. -/
theorem execute_path_by_leading_keyword (sql : String) (conn : Conn) :
    (isSelectStmt sql = true →
      executor_execute sql conn =
        .ok ⟨conn.fetchResult.rows, some conn.fetchResult.rows.length,
             some (conn.fetchResult.columns.getD [])⟩) ∧
    (isSelectStmt sql = false →
      (∀ r, executor_execute sql conn = .ok r → r.rows = []) ∧
      (∀ fr : FetchResult,
        executor_execute sql ⟨fr, conn.statusText⟩ = executor_execute sql conn)) := by
  constructor
  · intro h
    simp [executor_execute, h]
  · intro h
    constructor
    · intro r hr
      simp only [executor_execute, h, Bool.false_eq_true, if_false] at hr
      cases hst : statusRowCount conn.statusText with
      | some n =>
        rw [hst] at hr
        have h2 : QueryResult.mk [] (some n) (some []) = r := by injection hr
        rw [← h2]
      | none =>
        rw [hst] at hr
        exact Except.noConfusion hr
    · intro fr
      simp [executor_execute, h]

/-- Closed instance of `execute_path_by_leading_keyword`: a lowercase,
whitespace-padded `select` takes the row-fetching path and materializes the
fetched row. -/
theorem execute_path_by_leading_keyword_witness :
    executor_execute "  select 1" ⟨⟨[[("a", "1")]], some [("a", "int4")]⟩, ""⟩ =
      .ok ⟨[[("a", "1")]], some 1, some [("a", "int4")]⟩ :=
  (execute_path_by_leading_keyword "  select 1"
    ⟨⟨[[("a", "1")]], some [("a", "int4")]⟩, ""⟩).1 (by decide)

/-- Claim C5 (confirmed): the normalization invariant of
`AsyncpgSessionExecutor.execute`.  Row-fetching path: `row_count` equals the
length of the returned rows, and the field descriptors are the per-column
(name, type-name) pairs whenever the driver result exposes column metadata.
Status-returning path: the rows are empty and `row_count` is the trailing
integer token of the engine's status tag — an empty status or a non-numeric
trailing token yields `row_count = 0` rather than a failure. -/
theorem execute_result_invariant (sql : String) (conn : Conn) :
    (isSelectStmt sql = true →
      ∀ r, executor_execute sql conn = .ok r →
        r.row_count = some r.rows.length ∧
        ∀ cols, conn.fetchResult.columns = some cols → r.fields = some cols) ∧
    (isSelectStmt sql = false →
      (conn.statusText = "" →
        executor_execute sql conn = .ok ⟨[], some 0, some []⟩) ∧
      (∀ tok, (pySplitWs conn.statusText).getLast? = some tok →
        pyIsdigit tok = false →
        executor_execute sql conn = .ok ⟨[], some 0, some []⟩) ∧
      (∀ tok, (pySplitWs conn.statusText).getLast? = some tok →
        pyIsdigit tok = true →
        executor_execute sql conn = .ok ⟨[], some (pyToNat tok), some []⟩)) := by
  constructor
  · intro h r hr
    simp only [executor_execute, h, if_true] at hr
    have h2 : QueryResult.mk conn.fetchResult.rows (some conn.fetchResult.rows.length)
        (some (conn.fetchResult.columns.getD [])) = r := by injection hr
    subst h2
    refine ⟨rfl, ?_⟩
    intro cols hcols
    simp [hcols]
  · intro h
    have hlast : ∀ tok, (pySplitWs conn.statusText).getLast? = some tok →
        conn.statusText ≠ "" := by
      intro tok htok heq
      rw [heq] at htok
      have hnone : (pySplitWs "").getLast? = none := by decide
      rw [hnone] at htok
      exact Option.noConfusion htok
    refine ⟨?_, ?_, ?_⟩
    · intro hempty
      simp [executor_execute, h, statusRowCount, hempty, parseTagCount, pyIsdigit]
      decide
    · intro tok htok hdig
      simp [executor_execute, h, statusRowCount, hlast tok htok, htok, parseTagCount, hdig]
    · intro tok htok hdig
      simp [executor_execute, h, statusRowCount, hlast tok htok, htok, parseTagCount, hdig]

/-- Closed instance of `execute_result_invariant`: an `INSERT` statement with
status tag `"INSERT 0 5"` yields no rows and `row_count = 5`. -/
theorem execute_result_invariant_witness :
    executor_execute "INSERT INTO t VALUES (1)" ⟨⟨[], none⟩, "INSERT 0 5"⟩ =
      .ok ⟨[], some (pyToNat "5"), some []⟩ :=
  ((execute_result_invariant "INSERT INTO t VALUES (1)"
    ⟨⟨[], none⟩, "INSERT 0 5"⟩).2 (by decide)).2.2 "5" (by decide) (by decide)

theorem updateSession_length (σ : Sessions) (sid : String) (f : SessData → SessData) :
    (updateSession σ sid f).length = σ.length := by
  simp [updateSession]

theorem reset_ttl_length (σ : Sessions) (sid : String) (now : Nat) :
    (reset_ttl σ sid now).length = σ.length := by
  simp [reset_ttl, updateSession]

theorem lookupSession_eq_none_of_all_ne (σ : Sessions) (sid : String)
    (h : ∀ e ∈ σ, e.sid ≠ sid) : lookupSession σ sid = none := by
  simp only [lookupSession, List.find?_eq_none, decide_eq_true_eq]
  exact h

theorem lookupSession_eraseP_none (σ : Sessions) (sid : String)
    (hnd : (σ.map SessData.sid).Nodup) :
    lookupSession (σ.eraseP (fun e => e.sid = sid)) sid = none := by
  induction σ with
  | nil => rfl
  | cons d rest ih =>
    simp only [List.map_cons, List.nodup_cons] at hnd
    by_cases hd : d.sid = sid
    · rw [show (d :: rest).eraseP (fun e => decide (e.sid = sid)) = rest by
        simp [List.eraseP_cons, hd]]
      apply lookupSession_eq_none_of_all_ne
      intro e he heq
      apply hnd.1
      rw [hd, ← heq]
      exact List.mem_map_of_mem SessData.sid he
    · rw [show (d :: rest).eraseP (fun e => decide (e.sid = sid)) =
          d :: rest.eraseP (fun e => decide (e.sid = sid)) by
        simp [List.eraseP_cons, hd]]
      unfold lookupSession
      rw [List.find?_cons_of_neg _ (by simp [hd])]
      exact ih hnd.2

theorem lookupSession_updateSession (σ : Sessions) (sid : String)
    (f : SessData → SessData) (hf : ∀ e, (f e).sid = e.sid) :
    lookupSession (updateSession σ sid f) sid = (lookupSession σ sid).map f := by
  induction σ with
  | nil => rfl
  | cons d rest ih =>
    by_cases hd : d.sid = sid
    · simp [updateSession, lookupSession, List.find?_cons, hd, hf]
    · simp only [updateSession, List.map_cons, if_neg hd, lookupSession]
      rw [List.find?_cons_of_neg _ (by simp [hd]), List.find?_cons_of_neg _ (by simp [hd])]
      exact ih

theorem mem_updateSession_of_ne (σ : Sessions) (sid : String)
    (f : SessData → SessData) (d : SessData) (hd : d ∈ σ) (hne : d.sid ≠ sid) :
    d ∈ updateSession σ sid f := by
  simp only [updateSession]
  refine List.mem_map.mpr ⟨d, hd, ?_⟩
  simp [hne]

/-- Claim C1 (confirmed): `create_session` never lets the live-session count
exceed `MAX_SESSIONS`.  The first conjunct is the inductive preservation step
under arbitrary concurrent interleaving (`σ0` at the first check, arbitrary
`σ1` when acquisition resumes): if both observed states are within the cap,
so is the resulting state.  Also: at-capacity calls fail with the
resource-exhausted error without acquiring; calls that lose the race during
the suspension window destroy the just-acquired executor and fail; an error
outcome never leaks the acquired executor. -/
theorem create_session_respects_cap (σ0 σ1 : Sessions) (new_id : String) (eid now : Nat) :
    (σ0.length ≤ MAX_SESSIONS → σ1.length ≤ MAX_SESSIONS →
      (create_session σ0 σ1 new_id eid now).state.length ≤ MAX_SESSIONS) ∧
    (MAX_SESSIONS ≤ σ0.length →
      create_session σ0 σ1 new_id eid now =
        ⟨σ0, .error .resourceExhausted, false, false⟩) ∧
    (σ0.length < MAX_SESSIONS → MAX_SESSIONS ≤ σ1.length →
      create_session σ0 σ1 new_id eid now =
        ⟨σ1, .error .resourceExhausted, true, true⟩) ∧
    (∀ e, (create_session σ0 σ1 new_id eid now).result = .error e →
      (create_session σ0 σ1 new_id eid now).acquired =
        (create_session σ0 σ1 new_id eid now).destroyed) ∧
    (σ0.length < MAX_SESSIONS → σ1.length < MAX_SESSIONS →
      (create_session σ0 σ1 new_id eid now).result = .ok new_id ∧
      (create_session σ0 σ1 new_id eid now).state.length = σ1.length + 1) := by
  by_cases h0 : MAX_SESSIONS ≤ σ0.length
  · refine ⟨?_, ?_, ?_, ?_, ?_⟩
    · intro ha _
      simp [create_session, h0]
      exact ha
    · intro _
      simp [create_session, h0]
    · intro hlt _
      exact absurd h0 (Nat.not_le_of_lt hlt)
    · intro e _
      simp [create_session, h0]
    · intro hlt _
      exact absurd h0 (Nat.not_le_of_lt hlt)
  · by_cases h1 : MAX_SESSIONS ≤ σ1.length
    · refine ⟨?_, ?_, ?_, ?_, ?_⟩
      · intro _ hb
        simp [create_session, h0, h1]
        exact hb
      · intro hc
        exact absurd hc h0
      · intro _ _
        simp [create_session, h0, h1]
      · intro e _
        simp [create_session, h0, h1]
      · intro _ hlt
        exact absurd h1 (Nat.not_le_of_lt hlt)
    · refine ⟨?_, ?_, ?_, ?_, ?_⟩
      · intro _ _
        simp only [create_session, if_neg h0, if_neg h1]
        rw [reset_ttl_length]
        simp only [List.length_cons]
        exact Nat.lt_of_not_le h1
      · intro hc
        exact absurd hc h0
      · intro _ hc
        exact absurd hc h1
      · intro e he
        simp [create_session, h0, h1] at he
      · intro _ _
        constructor
        · simp [create_session, h0, h1]
        · simp only [create_session, if_neg h0, if_neg h1]
          rw [reset_ttl_length]
          simp

/-- Closed instance of `create_session_respects_cap`: creating in an empty
registry succeeds and yields one live session. -/
theorem create_session_respects_cap_witness :
    (create_session [] [] "s1" 7 0).result = .ok "s1" ∧
      (create_session [] [] "s1" 7 0).state.length = 0 + 1 :=
  (create_session_respects_cap [] [] "s1" 7 0).2.2.2.2 (by decide) (by decide)

/-- Claim C2 (confirmed): `close_session` is idempotent and race-safe.  The
entry is popped from the map before the connection is released, so the first
of two racing paths (a second explicit `close_session`, or the expiry-timer
callback `_expire_session`, in either order) is the only one that observes a
present entry; the second call releases nothing.  A present entry is released
by the first call, and a call on an absent identifier is a no-op. -/
theorem close_session_idempotent (σ : Sessions) (sid : String)
    (hnd : (σ.map SessData.sid).Nodup) :
    ((close_session (close_session σ sid).1 sid).2 = none) ∧
    ((expire_session (close_session σ sid).1 sid).2 = none) ∧
    ((close_session (expire_session σ sid).1 sid).2 = none) ∧
    (∀ d, lookupSession σ sid = some d → (close_session σ sid).2 = some d) ∧
    (lookupSession σ sid = none → close_session σ sid = (σ, none)) := by
  have hafter : lookupSession (close_session σ sid).1 sid = none := by
    cases hl : lookupSession σ sid with
    | none => simp [close_session, hl]
    | some d =>
      simp only [close_session, hl]
      exact lookupSession_eraseP_none σ sid hnd
  have hsecond : (close_session (close_session σ sid).1 sid).2 = none := by
    generalize hg : (close_session σ sid).1 = σ'
    rw [hg] at hafter
    simp [close_session, hafter]
  refine ⟨hsecond, hsecond, hsecond, ?_, ?_⟩
  · intro d hd
    simp [close_session, hd]
  · intro hnone
    simp [close_session, hnone]

/-- Closed instance of `close_session_idempotent`: with one live session,
the first close pops it and the second close releases nothing. -/
theorem close_session_idempotent_witness :
    (close_session (close_session [⟨"s1", 7, 0, 0, none⟩] "s1").1 "s1").2 = none ∧
    (close_session [⟨"s1", 7, 0, 0, none⟩] "s1").2 = some ⟨"s1", 7, 0, 0, none⟩ :=
  ⟨(close_session_idempotent [⟨"s1", 7, 0, 0, none⟩] "s1" (by decide)).1,
   (close_session_idempotent [⟨"s1", 7, 0, 0, none⟩] "s1" (by decide)).2.2.2.1
     ⟨"s1", 7, 0, 0, none⟩ (by decide)⟩

/-- Claim C3 (confirmed): the metadata lookup `get_session` returns the entry
and leaves the registry state untouched; the executor lookup
`get_session_executor`, on every present session, refreshes `last_accessed`
to the current time and reschedules the expiry deadline to
`now + SESSION_TTL_MINUTES` (sliding TTL), leaving every other session
unchanged; on an unknown identifier it returns `none` without mutating any
state. -/
theorem get_session_pure_and_executor_slides (σ : Sessions) (sid : String) (now : Nat) :
    (get_session σ sid = (lookupSession σ sid, σ)) ∧
    (lookupSession σ sid = none → get_session_executor σ sid now = (none, σ)) ∧
    (∀ d, lookupSession σ sid = some d →
      (get_session_executor σ sid now).1 = some d.executor ∧
      lookupSession (get_session_executor σ sid now).2 sid =
        some { d with last_accessed := now, ttl_timer := some (now + SESSION_TTL_MINUTES) } ∧
      ∀ e ∈ σ, e.sid ≠ sid → e ∈ (get_session_executor σ sid now).2) := by
  refine ⟨rfl, ?_, ?_⟩
  · intro hnone
    simp [get_session_executor, hnone]
  · intro d hd
    refine ⟨?_, ?_, ?_⟩
    · simp [get_session_executor, hd]
    · simp only [get_session_executor, hd, reset_ttl]
      rw [lookupSession_updateSession _ sid
            (fun d => { d with ttl_timer := some (now + SESSION_TTL_MINUTES) })
            (fun e => rfl),
          lookupSession_updateSession σ sid
            (fun e => { e with last_accessed := now })
            (fun e => rfl),
          hd]
      rfl
    · intro e he hne
      simp only [get_session_executor, hd, reset_ttl]
      exact mem_updateSession_of_ne _ _ _ _ (mem_updateSession_of_ne _ _ _ _ he hne) hne

/-- Closed instance of `get_session_pure_and_executor_slides`: looking up the
executor of a live session at time 5 returns its executor and slides its
expiry deadline to `5 + SESSION_TTL_MINUTES`. -/
theorem get_session_pure_and_executor_slides_witness :
    (get_session_executor [⟨"s1", 7, 0, 0, some 30⟩] "s1" 5).1 = some 7 ∧
    lookupSession (get_session_executor [⟨"s1", 7, 0, 0, some 30⟩] "s1" 5).2 "s1" =
      some ⟨"s1", 7, 0, 5, some (5 + SESSION_TTL_MINUTES)⟩ :=
  ⟨((get_session_pure_and_executor_slides [⟨"s1", 7, 0, 0, some 30⟩] "s1" 5).2.2
      ⟨"s1", 7, 0, 0, some 30⟩ (by decide)).1,
   ((get_session_pure_and_executor_slides [⟨"s1", 7, 0, 0, some 30⟩] "s1" 5).2.2
      ⟨"s1", 7, 0, 0, some 30⟩ (by decide)).2.1⟩

/-- Claim C6 (counterexample to the claim as stated): an explicitly supplied
empty-string session identifier is unknown to the registry, yet
`resolve_executor` silently returns the pool executor instead of failing
with the invalid-session error, because `if not session_id:` treats the
empty string as absent. -/
theorem resolve_executor_claim_false :
    resolve_executor 0 [] (some "") 0 = .ok (0, []) ∧
    lookupSession [] "" = none ∧
    resolve_executor 0 [] (some "") 0 ≠ .error (.invalidSession "") := by
  refine ⟨rfl, rfl, ?_⟩
  intro h
  exact Except.noConfusion h

/-- Claim C6 (amended): when the supplied session identifier is Python-falsy
(`None` or the empty string) `resolve_executor` returns the process-wide
pool executor with the registry untouched; when a non-empty identifier is
supplied it delegates to the registry's executor lookup — an unknown or
expired identifier fails with the invalid-session error carrying the
offending identifier (never falling back to the pool), and a live one
returns that session's dedicated executor together with the TTL-refreshed
registry state. -/
theorem resolve_executor_amended (pool : Nat) (σ : Sessions)
    (session_id : Option String) (now : Nat) :
    (pyTruthyStr session_id = false →
      resolve_executor pool σ session_id now = .ok (pool, σ)) ∧
    (∀ s, session_id = some s → s ≠ "" →
      (lookupSession σ s = none →
        resolve_executor pool σ session_id now = .error (.invalidSession s)) ∧
      (∀ d, lookupSession σ s = some d →
        resolve_executor pool σ session_id now =
          .ok (d.executor, (get_session_executor σ s now).2))) := by
  constructor
  · intro hf
    simp [resolve_executor, hf]
  · intro s hs hne
    subst hs
    have ht : pyTruthyStr (some s) = true := by
      simp [pyTruthyStr, hne]
    constructor
    · intro hnone
      simp [resolve_executor, ht, get_session_executor, hnone]
    · intro d hd
      simp [resolve_executor, ht, get_session_executor, hd]

/-- Closed instance of `resolve_executor_amended`: a live session's
identifier resolves to that session's dedicated executor, not the pool. -/
theorem resolve_executor_amended_witness :
    resolve_executor 0 [⟨"s1", 7, 0, 0, some 30⟩] (some "s1") 5 =
      .ok (7, (get_session_executor [⟨"s1", 7, 0, 0, some 30⟩] "s1" 5).2) :=
  ((resolve_executor_amended 0 [⟨"s1", 7, 0, 0, some 30⟩] (some "s1") 5).2
    "s1" rfl (by decide)).2 ⟨"s1", 7, 0, 0, some 30⟩ (by decide)

theorem updateSession_frame (σ : Sessions) (sid : String) (f : SessData → SessData)
    (h : ∀ d ∈ σ, d.sid ≠ sid) : updateSession σ sid f = σ := by
  induction σ with
  | nil => rfl
  | cons d rest ih =>
    simp only [updateSession, List.map_cons]
    rw [if_neg (h d (List.mem_cons_self d rest))]
    have htail := ih (fun e he => h e (List.mem_cons_of_mem d he))
    simp only [updateSession] at htail
    rw [htail]

theorem updateSession_cons_fresh (σ0 : Sessions) (sid : String)
    (f : SessData → SessData) (e : SessData) (he : e.sid = sid)
    (hfresh : ∀ d ∈ σ0, d.sid ≠ sid) :
    updateSession (e :: σ0) sid f = f e :: σ0 := by
  simp only [updateSession, List.map_cons, if_pos he]
  have := updateSession_frame σ0 sid f hfresh
  simp only [updateSession] at this
  rw [this]

theorem create_session_serial_ok (σ0 : Sessions) (new_id : String) (eid now : Nat)
    (hlen : σ0.length < MAX_SESSIONS) (hfresh : ∀ d ∈ σ0, d.sid ≠ new_id) :
    create_session_serial σ0 new_id eid now =
      ⟨⟨new_id, eid, now, now, some (now + SESSION_TTL_MINUTES)⟩ :: σ0,
       .ok new_id, true, false⟩ := by
  unfold create_session_serial create_session
  rw [if_neg (Nat.not_le_of_lt hlen), if_neg (Nat.not_le_of_lt hlen)]
  have hstate := updateSession_cons_fresh σ0 new_id
    (fun d => { d with ttl_timer := some (now + SESSION_TTL_MINUTES) })
    ⟨new_id, eid, now, now, none⟩ rfl hfresh
  simp only [reset_ttl]
  rw [hstate]

theorem get_session_executor_cons_self (σ0 : Sessions) (sid : String)
    (e : SessData) (now : Nat) (he : e.sid = sid)
    (hfresh : ∀ d ∈ σ0, d.sid ≠ sid) :
    get_session_executor (e :: σ0) sid now =
      (some e.executor,
       { e with last_accessed := now, ttl_timer := some (now + SESSION_TTL_MINUTES) } :: σ0) := by
  have hl : lookupSession (e :: σ0) sid = some e := by
    unfold lookupSession
    rw [List.find?_cons_of_pos _ (by simp [he])]
  simp only [get_session_executor, hl]
  rw [updateSession_cons_fresh σ0 sid (fun d => { d with last_accessed := now }) e he hfresh]
  simp only [reset_ttl]
  rw [updateSession_cons_fresh σ0 sid
    (fun d => { d with ttl_timer := some (now + SESSION_TTL_MINUTES) })
    ({ e with last_accessed := now }) he hfresh]

theorem close_session_cons_self (σ0 : Sessions) (sid : String) (e : SessData)
    (he : e.sid = sid) :
    close_session (e :: σ0) sid = (σ0, some e) := by
  have hl : lookupSession (e :: σ0) sid = some e := by
    unfold lookupSession
    rw [List.find?_cons_of_pos _ (by simp [he])]
  simp only [close_session, hl]
  rw [show (e :: σ0).eraseP (fun d => decide (d.sid = sid)) = σ0 by
    simp [List.eraseP_cons, he]]

/-- Claim C7 (counterexample to the claim as stated): supplying the invalid
isolation level `"BOGUS"` to `begin` does NOT fail before any connection is
touched — a session is created and a connection acquired first (the trace
starts with the acquisition), and the raised error is the begin-failure
wrapper around the invalid-isolation error, produced only after the
just-created session is closed again. -/
theorem begin_handler_claim_false :
    (begin_handler (some "BOGUS") [] "s1" 7 0).events = [Ev.acquire 7, Ev.destroy 7] ∧
    Ev.acquire 7 ∈ (begin_handler (some "BOGUS") [] "s1" 7 0).events ∧
    (begin_handler (some "BOGUS") [] "s1" 7 0).result =
      .error (.beginFailed (.invalidIsolation "BOGUS")) := by
  decide

/-- Claim C7 (amended): for every non-empty isolation level string not in
the enumerated set (case-insensitively), `begin` first creates a throwaway
session — acquiring a connection — and only then rejects the level: it
raises the invalid-isolation error (wrapped in the begin-failure error)
without ever interpolating the unvalidated text into any issued SQL
statement (no SQL is issued at all on this path), and the throwaway session
is closed again, destroying the acquired connection and restoring the
registry to its prior state.  (An empty isolation level string is treated
as absent.) -/
theorem begin_handler_amended (lvl : String) (σ0 : Sessions) (new_id : String)
    (eid now : Nat) (hne : lvl ≠ "")
    (hinv : valid_levels.contains (pyUpper lvl) = false)
    (hlen : σ0.length < MAX_SESSIONS)
    (hfresh : ∀ d ∈ σ0, d.sid ≠ new_id) :
    begin_handler (some lvl) σ0 new_id eid now =
      ⟨.error (.beginFailed (.invalidIsolation lvl)), σ0,
       [Ev.acquire eid, Ev.destroy eid]⟩ ∧
    ∀ s q, Ev.sqlOn s q ∉ (begin_handler (some lvl) σ0 new_id eid now).events := by
  have ht : pyTruthyStr (some lvl) = true := by
    simp [pyTruthyStr, hne]
  have hmain : begin_handler (some lvl) σ0 new_id eid now =
      ⟨.error (.beginFailed (.invalidIsolation lvl)), σ0,
       [Ev.acquire eid, Ev.destroy eid]⟩ := by
    simp only [begin_handler, create_session_serial_ok σ0 new_id eid now hlen hfresh,
      get_session_executor_cons_self σ0 new_id
        ⟨new_id, eid, now, now, some (now + SESSION_TTL_MINUTES)⟩ now rfl hfresh,
      ht, if_true, Option.getD, hinv, Bool.false_eq_true, if_false,
      close_session_cons_self σ0 new_id
        ⟨new_id, eid, now, now, some (now + SESSION_TTL_MINUTES)⟩ rfl]
    simp [createEvents, closeEvents]
  refine ⟨hmain, ?_⟩
  intro s q hq
  rw [hmain] at hq
  simp at hq

/-- Closed instance of `begin_handler_amended`: the invalid level `"bogus"`
with one pre-existing session. -/
theorem begin_handler_amended_witness :
    begin_handler (some "bogus") [⟨"s0", 3, 0, 0, none⟩] "s1" 7 0 =
      ⟨.error (.beginFailed (.invalidIsolation "bogus")), [⟨"s0", 3, 0, 0, none⟩],
       [Ev.acquire 7, Ev.destroy 7]⟩ :=
  (begin_handler_amended "bogus" [⟨"s0", 3, 0, 0, none⟩] "s1" 7 0
    (by decide) (by decide) (by decide) (by decide)).1

theorem runOps_ok_append (oracle : String → Option (List String) → Except String Unit)
    (sid : String) (pre rest : List TxOp) (i : Nat)
    (h : ∀ p ∈ pre, ∃ q, p.sql = some q ∧ q ≠ "" ∧ oracle q p.params = .ok ()) :
    runOps oracle sid (pre ++ rest) i =
      ((pre.map fun p => Ev.sqlOn sid (p.sql.getD "")) ++
         (runOps oracle sid rest (i + pre.length)).1,
       (runOps oracle sid rest (i + pre.length)).2) := by
  induction pre generalizing i with
  | nil => simp
  | cons p pre' ih =>
    obtain ⟨q, hq, hqne, hok⟩ := h p (List.mem_cons_self p pre')
    have ht : pyTruthyStr p.sql = true := by
      rw [hq]
      simp [pyTruthyStr, hqne]
    simp only [List.cons_append, runOps, ht, Bool.not_true, Bool.false_eq_true, if_false]
    rw [hq]
    simp only [Option.getD_some, hok, List.append_eq]
    rw [ih (i + 1) (fun e he => h e (List.mem_cons_of_mem p he))]
    have harith : i + 1 + pre'.length = i + (pre'.length + 1) := by omega
    rw [harith]
    simp [hq]

theorem transaction_handler_shape
    (operations : List TxOp)
    (oracle : String → Option (List String) → Except String Unit)
    (σ0 : Sessions) (new_id : String) (eid now : Nat)
    (hne : operations ≠ []) (hlen : σ0.length < MAX_SESSIONS)
    (hfresh : ∀ d ∈ σ0, d.sid ≠ new_id)
    (hB : oracle "BEGIN" none = .ok ()) :
    transaction_handler operations oracle σ0 new_id eid now =
      (match (runOps oracle new_id operations 0).2 with
       | some e =>
         ⟨.error e, σ0,
          Ev.acquire eid :: Ev.sqlOn new_id "BEGIN" ::
            ((runOps oracle new_id operations 0).1 ++ [Ev.destroy eid])⟩
       | none =>
         match oracle "COMMIT" none with
         | .error m =>
           ⟨.error (.engineError m), σ0,
            Ev.acquire eid :: Ev.sqlOn new_id "BEGIN" ::
              ((runOps oracle new_id operations 0).1 ++
                [Ev.sqlOn new_id "COMMIT", Ev.destroy eid])⟩
         | .ok _ =>
           ⟨.error .attributeError, σ0,
            Ev.acquire eid :: Ev.sqlOn new_id "BEGIN" ::
              ((runOps oracle new_id operations 0).1 ++
                [Ev.sqlOn new_id "COMMIT", Ev.destroy eid])⟩) := by
  have hni : operations.isEmpty = false := by
    cases operations with
    | nil => exact absurd rfl hne
    | cons a l => rfl
  simp only [transaction_handler, hni, Bool.false_eq_true, if_false,
    create_session_serial_ok σ0 new_id eid now hlen hfresh,
    get_session_executor_cons_self σ0 new_id
      ⟨new_id, eid, now, now, some (now + SESSION_TTL_MINUTES)⟩ now rfl hfresh,
    hB,
    close_session_cons_self σ0 new_id
      ⟨new_id, eid, now, now, some (now + SESSION_TTL_MINUTES)⟩ rfl]
  cases hr : (runOps oracle new_id operations 0).2 with
  | some e => simp [createEvents, closeEvents]
  | none =>
    cases hc : oracle "COMMIT" none with
    | error m => simp [createEvents, closeEvents]
    | ok u => simp [createEvents, closeEvents]

theorem runOps_falsy_head (oracle : String → Option (List String) → Except String Unit)
    (sid : String) (op : TxOp) (post : List TxOp) (i : Nat)
    (hf : pyTruthyStr op.sql = false) :
    runOps oracle sid (op :: post) i = ([], some (.opMissingSql i)) := by
  simp [runOps, hf]

theorem runOps_fail_head (oracle : String → Option (List String) → Except String Unit)
    (sid : String) (op : TxOp) (post : List TxOp) (i : Nat) (q m : String)
    (hq : op.sql = some q) (hqne : q ≠ "")
    (hfail : oracle q op.params = .error m)
    (hR : oracle "ROLLBACK" none = .ok ()) :
    runOps oracle sid (op :: post) i =
      ([Ev.sqlOn sid q, Ev.sqlOn sid "ROLLBACK"], some (.txFailed i m)) := by
  have ht : pyTruthyStr op.sql = true := by
    rw [hq]
    simp [pyTruthyStr, hqne]
  simp only [runOps, ht, Bool.not_true, Bool.false_eq_true, if_false]
  rw [hq]
  simp only [Option.getD_some, hfail, hR]

theorem runOps_all_ok (oracle : String → Option (List String) → Except String Unit)
    (sid : String) (ops : List TxOp) (i : Nat)
    (h : ∀ p ∈ ops, ∃ q, p.sql = some q ∧ q ≠ "" ∧ oracle q p.params = .ok ()) :
    runOps oracle sid ops i = (ops.map fun p => Ev.sqlOn sid (p.sql.getD ""), none) := by
  have happ := runOps_ok_append oracle sid ops [] i h
  rw [List.append_nil] at happ
  rw [happ]
  simp [runOps]

/-- Claim C8 (counterexample to the claim as stated): a batch whose first
operation has an empty SQL string fails with an error identifying index 0
but does NOT issue `ROLLBACK` — the missing-sql check raises outside the
inner try/except, so only `BEGIN` is issued before the session is torn
down. -/
theorem transaction_handler_claim_false :
    (transaction_handler [⟨some "", none⟩] (fun _ _ => .ok ()) [] "s1" 7 0).result =
      .error (.opMissingSql 0) ∧
    Ev.sqlOn "s1" "ROLLBACK" ∉
      (transaction_handler [⟨some "", none⟩] (fun _ _ => .ok ()) [] "s1" 7 0).events ∧
    (transaction_handler [⟨some "", none⟩] (fun _ _ => .ok ()) [] "s1" 7 0).events =
      [Ev.acquire 7, Ev.sqlOn "s1" "BEGIN", Ev.destroy 7] := by
  decide

/-- Claim C8 (amended): for every non-empty list of operations the batched
transaction creates a throwaway session and, on every exit path, closes it
again (registry restored, acquired connection destroyed).  When `BEGIN`
succeeds: an operation with present non-empty SQL whose execution fails,
after a prefix of succeeding operations, triggers `ROLLBACK` and aborts the
batch with an error carrying that operation's index; an operation whose SQL
is absent or empty aborts with an error carrying its index but WITHOUT
issuing `ROLLBACK`; if every operation succeeds, `COMMIT` is issued after
the last one (the subsequent response construction then fails on the
missing `QueryResult.to_dict`, after `COMMIT` and after cleanup is
guaranteed). -/
theorem transaction_handler_amended
    (operations : List TxOp)
    (oracle : String → Option (List String) → Except String Unit)
    (σ0 : Sessions) (new_id : String) (eid now : Nat)
    (hne : operations ≠ []) (hlen : σ0.length < MAX_SESSIONS)
    (hfresh : ∀ d ∈ σ0, d.sid ≠ new_id) :
    ((transaction_handler operations oracle σ0 new_id eid now).state = σ0 ∧
     Ev.destroy eid ∈ (transaction_handler operations oracle σ0 new_id eid now).events) ∧
    (oracle "BEGIN" none = .ok () →
      (∀ pre op post, operations = pre ++ op :: post →
        (∀ p ∈ pre, ∃ q, p.sql = some q ∧ q ≠ "" ∧ oracle q p.params = .ok ()) →
        pyTruthyStr op.sql = false →
        transaction_handler operations oracle σ0 new_id eid now =
          ⟨.error (.opMissingSql pre.length), σ0,
           Ev.acquire eid :: Ev.sqlOn new_id "BEGIN" ::
             ((pre.map fun p => Ev.sqlOn new_id (p.sql.getD "")) ++ [Ev.destroy eid])⟩) ∧
      (∀ pre op post q m, operations = pre ++ op :: post →
        (∀ p ∈ pre, ∃ qq, p.sql = some qq ∧ qq ≠ "" ∧ oracle qq p.params = .ok ()) →
        op.sql = some q → q ≠ "" → oracle q op.params = .error m →
        oracle "ROLLBACK" none = .ok () →
        transaction_handler operations oracle σ0 new_id eid now =
          ⟨.error (.txFailed pre.length m), σ0,
           Ev.acquire eid :: Ev.sqlOn new_id "BEGIN" ::
             ((pre.map fun p => Ev.sqlOn new_id (p.sql.getD "")) ++
              [Ev.sqlOn new_id q, Ev.sqlOn new_id "ROLLBACK", Ev.destroy eid])⟩) ∧
      ((∀ p ∈ operations, ∃ q, p.sql = some q ∧ q ≠ "" ∧ oracle q p.params = .ok ()) →
        oracle "COMMIT" none = .ok () →
        transaction_handler operations oracle σ0 new_id eid now =
          ⟨.error .attributeError, σ0,
           Ev.acquire eid :: Ev.sqlOn new_id "BEGIN" ::
             ((operations.map fun p => Ev.sqlOn new_id (p.sql.getD "")) ++
              [Ev.sqlOn new_id "COMMIT", Ev.destroy eid])⟩)) := by
  have hni : operations.isEmpty = false := by
    cases operations with
    | nil => exact absurd rfl hne
    | cons a l => rfl
  constructor
  · simp only [transaction_handler, hni, Bool.false_eq_true, if_false,
      create_session_serial_ok σ0 new_id eid now hlen hfresh,
      get_session_executor_cons_self σ0 new_id
        ⟨new_id, eid, now, now, some (now + SESSION_TTL_MINUTES)⟩ now rfl hfresh,
      close_session_cons_self σ0 new_id
        ⟨new_id, eid, now, now, some (now + SESSION_TTL_MINUTES)⟩ rfl]
    cases hb : oracle "BEGIN" none with
    | error m => simp [createEvents, closeEvents]
    | ok u =>
      cases hr : (runOps oracle new_id operations 0).2 with
      | some e => simp [createEvents, closeEvents]
      | none =>
        cases hc : oracle "COMMIT" none with
        | error m => simp [createEvents, closeEvents]
        | ok v => simp [createEvents, closeEvents]
  · intro hB
    refine ⟨?_, ?_, ?_⟩
    · intro pre op post hops hpre hfalsy
      subst hops
      rw [transaction_handler_shape _ oracle σ0 new_id eid now hne hlen hfresh hB]
      rw [runOps_ok_append oracle new_id pre (op :: post) 0 hpre]
      rw [runOps_falsy_head oracle new_id op post (0 + pre.length) hfalsy]
      simp
    · intro pre op post q m hops hpre hq hqne hfail hR
      subst hops
      rw [transaction_handler_shape _ oracle σ0 new_id eid now hne hlen hfresh hB]
      rw [runOps_ok_append oracle new_id pre (op :: post) 0 hpre]
      rw [runOps_fail_head oracle new_id op post (0 + pre.length) q m hq hqne hfail hR]
      simp
    · intro hall hC
      rw [transaction_handler_shape _ oracle σ0 new_id eid now hne hlen hfresh hB]
      rw [runOps_all_ok oracle new_id operations 0 hall]
      simp [hC]

/-- Closed instance of `transaction_handler_amended`, matching the spec's
Scenario C: operations `[INSERT, BAD]` where the second fails — the batch
issues `ROLLBACK`, aborts with an error identifying operation index 1, and
the session is closed. -/
theorem transaction_handler_amended_witness :
    transaction_handler [⟨some "INSERT", none⟩, ⟨some "BAD", none⟩]
        (fun q _ => if q == "BAD" then .error "syntax" else .ok ()) [] "s1" 7 0 =
      ⟨.error (.txFailed 1 "syntax"), [],
       Ev.acquire 7 :: Ev.sqlOn "s1" "BEGIN" ::
         (([(⟨some "INSERT", none⟩ : TxOp)].map fun p => Ev.sqlOn "s1" (p.sql.getD "")) ++
          [Ev.sqlOn "s1" "BAD", Ev.sqlOn "s1" "ROLLBACK", Ev.destroy 7])⟩ :=
  ((transaction_handler_amended [⟨some "INSERT", none⟩, ⟨some "BAD", none⟩]
      (fun q _ => if q == "BAD" then .error "syntax" else .ok ()) [] "s1" 7 0
      (by decide) (by decide) (by decide)).2 (by decide)).2.1
    [⟨some "INSERT", none⟩] ⟨some "BAD", none⟩ [] "BAD" "syntax" rfl
    (by
      intro p hp
      rw [List.mem_singleton] at hp
      subst hp
      exact ⟨"INSERT", rfl, by decide, by decide⟩)
    rfl (by decide) (by decide) (by decide)
